import Mathlib

/-!
Shallow embedding of the lis2mdl magnetometer driver (src/src/lib.rs).

Modelling conventions:
* Machine bytes (`u8`) are `Nat`; where the source decodes bytes, the value is
  reduced `% 256` explicitly.  `i16` values are `Int` (the decoder only ever
  produces values in `[-32768, 32767]`).
* `f32` arithmetic is idealised: the calibration pipeline (scale factors,
  min/max extrema, offsets) is modelled exactly over `ℚ` (every operation the
  source performs there is a ring operation, `min`, `max` or division by 2),
  and the final `atan2` angle over `ℝ` with the mathematical `atan2`
  (`Complex.arg`), with `atan2 0 0 = 0` as in the source's convention.
  The `f32::MAX` / `f32::MIN` sentinels used by the source are the exact
  rationals they denote.
* The I2C transport (`embedded_hal::i2c::I2c`) is an arbitrary deterministic
  state machine `Bus B E`: `write` and `transaction` consume a bus state and
  return a result together with the next bus state (the bus may advance its
  state even on failure).  The delay provider is infallible and is recorded
  only in the event trace.
* Every fallible driver operation is a function from a bus, a bus state and a
  driver state to an `OpResult`: the `Except`-wrapped result, the next bus
  state, the next driver state, and the trace of transport/delay events the
  operation issued, in order.
-/

/-- Register-map constant from the source: default device address. -/
def DEFAULT_DEVICE_ID : Nat := 0x1E

/-- Configuration register A (0x60). -/
def LIS2MDL_CFG_REG_A : Nat := 0x60

/-- Configuration register B (0x61). -/
def LIS2MDL_CFG_REG_B : Nat := 0x61

/-- Configuration register C (0x62). -/
def LIS2MDL_CFG_REG_C : Nat := 0x62

/-- Data-output base register (0x68). -/
def LIS2MDL_OUTX_L_REG : Nat := 0x68

/-- Identity register (0x4F). -/
def LIS2MDL_WHO_AM_I_REG : Nat := 0x4F

/-- Expected chip identity byte (0x40). -/
def CHIP_ID : Nat := 0x40

/-- Per-LSB scale, 1.5 mgauss/LSB, exact as a rational. -/
def LIS2MDL_MAG_LSB : ℚ := 3 / 2

/-- Milligauss-to-microtesla factor 0.1, exact as a rational. -/
def LIS2MDL_MGAUSS_TO_UT : ℚ := 1 / 10

/-- The exact rational value of Rust `f32::MAX` = (2 − 2⁻²³)·2¹²⁷. -/
def f32MAX : ℚ := 340282346638528859811704183484516925440

/-- The exact rational value of Rust `f32::MIN` = −`f32::MAX`. -/
def f32MIN : ℚ := -340282346638528859811704183484516925440

/-- I2C device address newtype (source `struct Address(pub(crate) u8)`). -/
structure Address where
  val : Nat
deriving Repr, DecidableEq

/-- `Default for Address`: the factory default 0x1E. -/
def Address.default : Address := ⟨DEFAULT_DEVICE_ID⟩

/-- `From<u8> for Address`. -/
def Address.fromU8 (value : Nat) : Address := ⟨value⟩

/-- `Address::seq()`: also the factory default. -/
def Address.seq : Address := ⟨DEFAULT_DEVICE_ID⟩

/-- Driver state: device address, last raw sample (i16 per axis), and the
running calibration extrema (idealised f32 values). The transport and delay
handles the Rust struct owns are modelled externally (`Bus`, event trace). -/
structure Lis2mdl where
  address : Nat
  mag_x : Int
  mag_y : Int
  mag_z : Int
  x_min : ℚ
  x_max : ℚ
  y_min : ℚ
  y_max : ℚ
deriving Repr, DecidableEq

/-- Events a driver operation issues toward its collaborators, in order. -/
inductive Event where
  | write (addr : Nat) (bytes : List Nat) : Event
  | transaction (addr : Nat) (writeBytes : List Nat) (readLen : Nat) : Event
  | delayNs (ns : Nat) : Event
deriving Repr, DecidableEq

/-- A deterministic model of an `embedded_hal` I2C transport: a state machine
over bus states `B` failing with errors `E`.  `transaction` returns the bytes
it read.  The bus state advances even on failure. -/
structure Bus (B E : Type) where
  write : B → Nat → List Nat → Except E Unit × B
  transaction : B → Nat → List Nat → Nat → Except E (List Nat) × B

/-- Result of one driver operation: the `Result` value, the next bus state,
the next driver state, and the issued event trace. -/
structure OpResult (B E α : Type) where
  res : Except E α
  bus : B
  drv : Lis2mdl
  trace : List Event

/-- Byte `i` of a read buffer; a buffer position the transaction did not fill
keeps its Rust initialisation value 0. -/
def byteAt (l : List Nat) (i : Nat) : Nat := l.getD i 0

/-- `i16::from_le_bytes([b0, b1])`. -/
def i16_from_le (b0 b1 : Nat) : Int :=
  let v := b0 % 256 + 256 * (b1 % 256)
  if v < 32768 then (v : Int) else (v : Int) - 65536

/-- `Lis2mdl::new`: stores the address, zeroes the raw sample, and sets the
calibration extrema to the `f32::MAX` / `f32::MIN` sentinels.  Pure: no I/O. -/
def Lis2mdl.new (a : Address) : Lis2mdl :=
  { address := a.val
    mag_x := 0
    mag_y := 0
    mag_z := 0
    x_min := f32MAX
    x_max := f32MIN
    y_min := f32MAX
    y_max := f32MIN }

/-- `Lis2mdl::set_register`: one transport write of `[reg, value]`. -/
def Lis2mdl.set_register {B E : Type} (bus : Bus B E) (b : B) (s : Lis2mdl)
    (reg value : Nat) : OpResult B E Unit :=
  match bus.write b s.address [reg, value] with
  | (Except.ok _, b1) => ⟨Except.ok (), b1, s, [Event.write s.address [reg, value]]⟩
  | (Except.error e, b1) => ⟨Except.error e, b1, s, [Event.write s.address [reg, value]]⟩

/-- `Lis2mdl::get_register`: write-then-read transaction returning one byte. -/
def Lis2mdl.get_register {B E : Type} (bus : Bus B E) (b : B) (s : Lis2mdl)
    (reg : Nat) : OpResult B E Nat :=
  match bus.transaction b s.address [reg] 1 with
  | (Except.ok buf, b1) =>
      ⟨Except.ok (byteAt buf 0), b1, s, [Event.transaction s.address [reg] 1]⟩
  | (Except.error e, b1) =>
      ⟨Except.error e, b1, s, [Event.transaction s.address [reg] 1]⟩

/-- `Lis2mdl::whoami`: write-then-read of the identity register. -/
def Lis2mdl.whoami {B E : Type} (bus : Bus B E) (b : B) (s : Lis2mdl) :
    OpResult B E Nat :=
  match bus.transaction b s.address [LIS2MDL_WHO_AM_I_REG] 1 with
  | (Except.ok buf, b1) =>
      ⟨Except.ok (byteAt buf 0), b1, s, [Event.transaction s.address [LIS2MDL_WHO_AM_I_REG] 1]⟩
  | (Except.error e, b1) =>
      ⟨Except.error e, b1, s, [Event.transaction s.address [LIS2MDL_WHO_AM_I_REG] 1]⟩

/-- `Lis2mdl::start`: the four-write initialisation sequence, each write
followed by a blocking delay, aborting on the first failed write. -/
def Lis2mdl.start {B E : Type} (bus : Bus B E) (b : B) (s : Lis2mdl) :
    OpResult B E Unit :=
  let r1 := s.set_register bus b LIS2MDL_CFG_REG_C 0x00
  match r1.res with
  | Except.error e => ⟨Except.error e, r1.bus, s, r1.trace⟩
  | Except.ok _ =>
    let t1 := r1.trace ++ [Event.delayNs 5000]
    let r2 := s.set_register bus r1.bus LIS2MDL_CFG_REG_C 0x11
    match r2.res with
    | Except.error e => ⟨Except.error e, r2.bus, s, t1 ++ r2.trace⟩
    | Except.ok _ =>
      let t2 := t1 ++ r2.trace ++ [Event.delayNs 5000]
      let r3 := s.set_register bus r2.bus LIS2MDL_CFG_REG_A 0x00
      match r3.res with
      | Except.error e => ⟨Except.error e, r3.bus, s, t2 ++ r3.trace⟩
      | Except.ok _ =>
        let t3 := t2 ++ r3.trace ++ [Event.delayNs 5000]
        let r4 := s.set_register bus r3.bus LIS2MDL_CFG_REG_B 0x00
        match r4.res with
        | Except.error e => ⟨Except.error e, r4.bus, s, t3 ++ r4.trace⟩
        | Except.ok _ =>
          ⟨Except.ok (), r4.bus, s, t3 ++ r4.trace ++ [Event.delayNs 10000]⟩

/-- `Lis2mdl::read`: write-then-read of six bytes from the data-output base
register; on success decodes three little-endian i16 values into the raw
sample, on failure leaves the driver state unchanged. -/
def Lis2mdl.read {B E : Type} (bus : Bus B E) (b : B) (s : Lis2mdl) :
    OpResult B E Unit :=
  match bus.transaction b s.address [LIS2MDL_OUTX_L_REG] 6 with
  | (Except.ok buf, b1) =>
      ⟨Except.ok (), b1,
        { s with
          mag_x := i16_from_le (byteAt buf 0) (byteAt buf 1)
          mag_y := i16_from_le (byteAt buf 2) (byteAt buf 3)
          mag_z := i16_from_le (byteAt buf 4) (byteAt buf 5) },
        [Event.transaction s.address [LIS2MDL_OUTX_L_REG] 6]⟩
  | (Except.error e, b1) =>
      ⟨Except.error e, b1, s, [Event.transaction s.address [LIS2MDL_OUTX_L_REG] 6]⟩

/-- The per-axis unit conversion of `current_xyz`: raw · 1.5 · 0.1. -/
def convertAxis (r : Int) : ℚ := (r : ℚ) * LIS2MDL_MAG_LSB * LIS2MDL_MGAUSS_TO_UT

/-- `Lis2mdl::current_xyz`: pure per-axis conversion of the stored sample. -/
def Lis2mdl.current_xyz (s : Lis2mdl) : ℚ × ℚ × ℚ :=
  (convertAxis s.mag_x, convertAxis s.mag_y, convertAxis s.mag_z)

/-- The extrema-update step of `get_heading` (source lines 125–128): the new
driver state after folding the current converted x/y into the running
min/max calibration window. -/
def Lis2mdl.heading_state (s : Lis2mdl) : Lis2mdl :=
  { s with
    x_max := max s.x_max (convertAxis s.mag_x)
    x_min := min s.x_min (convertAxis s.mag_x)
    y_max := max s.y_max (convertAxis s.mag_y)
    y_min := min s.y_min (convertAxis s.mag_y) }

/-- The hard-iron x offset computed by `get_heading` (source line 131),
as a function of the (already updated) extrema. -/
def Lis2mdl.x_offset (s : Lis2mdl) : ℚ := (s.x_max + s.x_min) / 2

/-- The hard-iron y offset (source line 132). -/
def Lis2mdl.y_offset (s : Lis2mdl) : ℚ := (s.y_max + s.y_min) / 2

/-- Mathematical `atan2 y x` with the `atan2 0 0 = 0` convention, via the
principal argument of the complex number `x + y·i` (range `(-π, π]`). -/
noncomputable def atan2 (y x : ℝ) : ℝ := Complex.arg ⟨x, y⟩

/-- The signed heading angle in degrees computed by `get_heading` (source
line 138), before normalisation: `atan2(y − y_offset, x − x_offset)·180/π`,
where the offsets come from the updated extrema. -/
noncomputable def Lis2mdl.heading_deg (s : Lis2mdl) : ℝ :=
  atan2 ((convertAxis s.mag_y - s.heading_state.y_offset : ℚ) : ℝ)
        ((convertAxis s.mag_x - s.heading_state.x_offset : ℚ) : ℝ) * 180 / Real.pi

/-- `Lis2mdl::get_heading`: returns the normalised heading in degrees and the
updated driver state (the extrema update is its side effect). -/
noncomputable def Lis2mdl.get_heading (s : Lis2mdl) : ℝ × Lis2mdl :=
  (if s.heading_deg < 0 then s.heading_deg + 360 else s.heading_deg, s.heading_state)

/-- Install a decoded raw sample into the driver state (the effect on
`mag_x/y/z` of one successful `read`, with the decoded triple abstracted). -/
def Lis2mdl.setSample (s : Lis2mdl) (r : Int × Int × Int) : Lis2mdl :=
  { s with mag_x := r.1, mag_y := r.2.1, mag_z := r.2.2 }

/-- Run a sequence of `get_heading` calls, installing an arbitrary raw sample
before each call (modelling arbitrary successful reads between calls); only
the driver-state side effects are tracked. -/
def Lis2mdl.runHeadings (s : Lis2mdl) : List (Int × Int × Int) → Lis2mdl
  | [] => s
  | r :: rs => Lis2mdl.runHeadings ((s.setSample r).heading_state) rs

/-- A test transport whose bus state counts issued writes and fails the third
write (and every later one); transactions always succeed with zero bytes. -/
def busFail3 : Bus Nat Unit :=
  { write := fun n _ _ => (if n < 2 then Except.ok () else Except.error (), n + 1)
    transaction := fun n _ _ k => (Except.ok (List.replicate k 0), n + 1) }

/-- A test transport whose transactions return the fixed six-byte payload
`[0x10, 0x00, 0xFF, 0xFF, 0x00, 0x80]`; writes always succeed. -/
def busReadOk : Bus Unit Unit :=
  { write := fun _ _ _ => (Except.ok (), ())
    transaction := fun _ _ _ _ => (Except.ok [0x10, 0x00, 0xFF, 0xFF, 0x00, 0x80], ()) }

/-- A test transport whose transactions always fail. -/
def busReadErr : Bus Unit Unit :=
  { write := fun _ _ _ => (Except.ok (), ())
    transaction := fun _ _ _ _ => (Except.error (), ()) }

/-- The driver state just before the fourth `get_heading` call of the
calibration scenario: three calls at the raw samples `(200, 0, 0)`,
`(-200, 0, 0)`, `(0, 200, 0)` (converted points `(30, 0)`, `(-30, 0)`,
`(0, 30)`), then the raw sample `(0, -200, 0)` (converted point `(0, -30)`)
installed for the final call. -/
def scenarioFinal : Lis2mdl :=
  ((Lis2mdl.new Address.default).runHeadings
    [(200, 0, 0), (-200, 0, 0), (0, 200, 0)]).setSample (0, -200, 0)

/-! ### Helper lemmas shared between claims -/

/-- A transport write leaves the driver state unchanged in `set_register`. -/
theorem set_register_drv {B E : Type} (bus : Bus B E) (b : B) (s : Lis2mdl)
    (reg value : Nat) : (s.set_register bus b reg value).drv = s := by
  rcases hw : bus.write b s.address [reg, value] with ⟨r, b1⟩
  cases r <;> simp [Lis2mdl.set_register, hw]

/-- `get_register` leaves the driver state unchanged. -/
theorem get_register_drv {B E : Type} (bus : Bus B E) (b : B) (s : Lis2mdl)
    (reg : Nat) : (s.get_register bus b reg).drv = s := by
  rcases hw : bus.transaction b s.address [reg] 1 with ⟨r, b1⟩
  cases r <;> simp [Lis2mdl.get_register, hw]

/-- `whoami` leaves the driver state unchanged. -/
theorem whoami_drv {B E : Type} (bus : Bus B E) (b : B) (s : Lis2mdl) :
    (s.whoami bus b).drv = s := by
  rcases hw : bus.transaction b s.address [LIS2MDL_WHO_AM_I_REG] 1 with ⟨r, b1⟩
  cases r <;> simp [Lis2mdl.whoami, hw]

/-- `start` leaves the driver state unchanged in every branch. -/
theorem start_drv {B E : Type} (bus : Bus B E) (b : B) (s : Lis2mdl) :
    (s.start bus b).drv = s := by
  cases h1 : (s.set_register bus b LIS2MDL_CFG_REG_C 0x00).res with
  | error e => simp [Lis2mdl.start, h1]
  | ok u1 =>
    cases h2 : (s.set_register bus (s.set_register bus b LIS2MDL_CFG_REG_C 0x00).bus
        LIS2MDL_CFG_REG_C 0x11).res with
    | error e => simp [Lis2mdl.start, h1, h2]
    | ok u2 =>
      cases h3 : (s.set_register bus (s.set_register bus
          (s.set_register bus b LIS2MDL_CFG_REG_C 0x00).bus
          LIS2MDL_CFG_REG_C 0x11).bus LIS2MDL_CFG_REG_A 0x00).res with
      | error e => simp [Lis2mdl.start, h1, h2, h3]
      | ok u3 =>
        cases h4 : (s.set_register bus (s.set_register bus (s.set_register bus
            (s.set_register bus b LIS2MDL_CFG_REG_C 0x00).bus
            LIS2MDL_CFG_REG_C 0x11).bus LIS2MDL_CFG_REG_A 0x00).bus
            LIS2MDL_CFG_REG_B 0x00).res with
        | error e => simp [Lis2mdl.start, h1, h2, h3, h4]
        | ok u4 => simp [Lis2mdl.start, h1, h2, h3, h4]

/-! ### Claim theorems -/

/-- Claim C10: `whoami` is observationally equivalent to `get_register 0x4F`:
same transaction, same returned byte or wrapped bus error, same trace. -/
theorem C10_whoami_refines_get_register :
    ∀ (B E : Type) (bus : Bus B E) (b : B) (s : Lis2mdl),
      s.whoami bus b = s.get_register bus b 0x4F :=
  fun _ _ _ _ _ => rfl

/-- Claim C8: only `read` mutates the stored raw sample: `start`, `whoami`,
`get_register`, `set_register` and `get_heading` leave `(mag_x, mag_y, mag_z)`
unchanged (`current_xyz` is a pure function of the state in this embedding and
cannot mutate anything), and `new` is the only other writer, setting it to
zero. -/
theorem C8_raw_sample_frame :
    ∀ (B E : Type) (bus : Bus B E) (b : B) (s : Lis2mdl) (a : Address)
      (reg value : Nat),
      (s.start bus b).drv.mag_x = s.mag_x ∧
      (s.start bus b).drv.mag_y = s.mag_y ∧
      (s.start bus b).drv.mag_z = s.mag_z ∧
      (s.whoami bus b).drv = s ∧
      (s.get_register bus b reg).drv = s ∧
      (s.set_register bus b reg value).drv = s ∧
      s.get_heading.2.mag_x = s.mag_x ∧
      s.get_heading.2.mag_y = s.mag_y ∧
      s.get_heading.2.mag_z = s.mag_z ∧
      (Lis2mdl.new a).mag_x = 0 ∧
      (Lis2mdl.new a).mag_y = 0 ∧
      (Lis2mdl.new a).mag_z = 0 := by
  intro B E bus b s a reg value
  refine ⟨?_, ?_, ?_, whoami_drv bus b s, get_register_drv bus b s reg,
    set_register_drv bus b s reg value, rfl, rfl, rfl, rfl, rfl, rfl⟩ <;>
    rw [start_drv bus b s]

/-- Claim C6 as stated is false: the constructor initialises the calibration
extrema to the finite sentinels `f32::MAX` / `f32::MIN`, not to `+∞` / `−∞`.
Concretely, `x_min` of a fresh driver equals `f32MAX` and is exceeded by the
value `f32MAX + 1`, so it is not a top element as `+∞` would be. -/
theorem C6_counterexample :
    (Lis2mdl.new Address.default).x_min = f32MAX ∧
    (Lis2mdl.new Address.default).x_min < f32MAX + 1 ∧
    (Lis2mdl.new Address.default).x_max = f32MIN ∧
    f32MIN - 1 < (Lis2mdl.new Address.default).x_max := by
  refine ⟨rfl, ?_, rfl, ?_⟩ <;> simp [Lis2mdl.new, f32MAX, f32MIN]

/-- Claim C6 amended: construction stores the address, initialises the raw
sample to `(0, 0, 0)` and the calibration extrema to
`(x_min, x_max, y_min, y_max) = (f32::MAX, f32::MIN, f32::MAX, f32::MIN)`
(finite sentinels chosen so that the first observation updates both bounds);
it performs no I/O and never fails (it is a total pure function here). -/
theorem C6_new_initial_state :
    ∀ (a : Address),
      Lis2mdl.new a =
        { address := a.val, mag_x := 0, mag_y := 0, mag_z := 0,
          x_min := f32MAX, x_max := f32MIN, y_min := f32MAX, y_max := f32MIN } :=
  fun _ => rfl

/-- Claim C3: for raw samples within the i16 range, `current_xyz` is a pure
deterministic function returning exactly `raw · 1.5 · 0.1` per axis, and its
value depends only on the stored raw sample, not on any other driver state. -/
theorem C3_current_xyz_formula :
    ∀ (s t : Lis2mdl),
      -32768 ≤ s.mag_x → s.mag_x ≤ 32767 →
      -32768 ≤ s.mag_y → s.mag_y ≤ 32767 →
      -32768 ≤ s.mag_z → s.mag_z ≤ 32767 →
      (s.current_xyz =
        ((s.mag_x : ℚ) * (3 / 2) * (1 / 10), (s.mag_y : ℚ) * (3 / 2) * (1 / 10),
          (s.mag_z : ℚ) * (3 / 2) * (1 / 10)) ∧
        (s.mag_x = t.mag_x → s.mag_y = t.mag_y → s.mag_z = t.mag_z →
          s.current_xyz = t.current_xyz)) := by
  intro s t _ _ _ _ _ _
  refine ⟨rfl, ?_⟩
  intro hx hy hz
  simp [Lis2mdl.current_xyz, convertAxis, hx, hy, hz]

/-- Witness for C3 at the spec scenario sample `(100, 200, 0)`:
`current_xyz` returns `(15, 30, 0)`. -/
theorem C3_witness :
    ((Lis2mdl.new Address.default).setSample (100, 200, 0)).current_xyz =
      (15, 30, 0) := by
  have h := (C3_current_xyz_formula
    ((Lis2mdl.new Address.default).setSample (100, 200, 0))
    ((Lis2mdl.new Address.default).setSample (100, 200, 0))
    (by decide) (by decide) (by decide) (by decide) (by decide) (by decide)).1
  rw [h]
  norm_num [Lis2mdl.setSample, Lis2mdl.new, Prod.ext_iff]

/-- Claim C1: `start` issues exactly the four writes `[0x62,0x00]`,
`[0x62,0x11]`, `[0x60,0x00]`, `[0x61,0x00]` in that order, each followed by a
delay of 5000, 5000, 5000, 10000 ns; if the k-th write fails the wrapped
transport error is returned at once and no later write or delay is issued
(nor the delay of the failing write itself). -/
theorem C1_start_write_sequence :
    ∀ (B E : Type) (bus : Bus B E) (b : B) (s : Lis2mdl),
      (∀ (e : E) (b1 : B),
        bus.write b s.address [0x62, 0x00] = (Except.error e, b1) →
        s.start bus b = ⟨Except.error e, b1, s,
          [Event.write s.address [0x62, 0x00]]⟩) ∧
      (∀ (b1 : B) (e : E) (b2 : B),
        bus.write b s.address [0x62, 0x00] = (Except.ok (), b1) →
        bus.write b1 s.address [0x62, 0x11] = (Except.error e, b2) →
        s.start bus b = ⟨Except.error e, b2, s,
          [Event.write s.address [0x62, 0x00], Event.delayNs 5000,
           Event.write s.address [0x62, 0x11]]⟩) ∧
      (∀ (b1 b2 : B) (e : E) (b3 : B),
        bus.write b s.address [0x62, 0x00] = (Except.ok (), b1) →
        bus.write b1 s.address [0x62, 0x11] = (Except.ok (), b2) →
        bus.write b2 s.address [0x60, 0x00] = (Except.error e, b3) →
        s.start bus b = ⟨Except.error e, b3, s,
          [Event.write s.address [0x62, 0x00], Event.delayNs 5000,
           Event.write s.address [0x62, 0x11], Event.delayNs 5000,
           Event.write s.address [0x60, 0x00]]⟩) ∧
      (∀ (b1 b2 b3 : B) (e : E) (b4 : B),
        bus.write b s.address [0x62, 0x00] = (Except.ok (), b1) →
        bus.write b1 s.address [0x62, 0x11] = (Except.ok (), b2) →
        bus.write b2 s.address [0x60, 0x00] = (Except.ok (), b3) →
        bus.write b3 s.address [0x61, 0x00] = (Except.error e, b4) →
        s.start bus b = ⟨Except.error e, b4, s,
          [Event.write s.address [0x62, 0x00], Event.delayNs 5000,
           Event.write s.address [0x62, 0x11], Event.delayNs 5000,
           Event.write s.address [0x60, 0x00], Event.delayNs 5000,
           Event.write s.address [0x61, 0x00]]⟩) ∧
      (∀ (b1 b2 b3 b4 : B),
        bus.write b s.address [0x62, 0x00] = (Except.ok (), b1) →
        bus.write b1 s.address [0x62, 0x11] = (Except.ok (), b2) →
        bus.write b2 s.address [0x60, 0x00] = (Except.ok (), b3) →
        bus.write b3 s.address [0x61, 0x00] = (Except.ok (), b4) →
        s.start bus b = ⟨Except.ok (), b4, s,
          [Event.write s.address [0x62, 0x00], Event.delayNs 5000,
           Event.write s.address [0x62, 0x11], Event.delayNs 5000,
           Event.write s.address [0x60, 0x00], Event.delayNs 5000,
           Event.write s.address [0x61, 0x00], Event.delayNs 10000]⟩) := by
  intro B E bus b s
  refine ⟨?_, ?_, ?_, ?_, ?_⟩
  · intro e b1 h1
    simp [Lis2mdl.start, Lis2mdl.set_register, LIS2MDL_CFG_REG_A,
      LIS2MDL_CFG_REG_B, LIS2MDL_CFG_REG_C, h1]
  · intro b1 e b2 h1 h2
    simp [Lis2mdl.start, Lis2mdl.set_register, LIS2MDL_CFG_REG_A,
      LIS2MDL_CFG_REG_B, LIS2MDL_CFG_REG_C, h1, h2]
  · intro b1 b2 e b3 h1 h2 h3
    simp [Lis2mdl.start, Lis2mdl.set_register, LIS2MDL_CFG_REG_A,
      LIS2MDL_CFG_REG_B, LIS2MDL_CFG_REG_C, h1, h2, h3]
  · intro b1 b2 b3 e b4 h1 h2 h3 h4
    simp [Lis2mdl.start, Lis2mdl.set_register, LIS2MDL_CFG_REG_A,
      LIS2MDL_CFG_REG_B, LIS2MDL_CFG_REG_C, h1, h2, h3, h4]
  · intro b1 b2 b3 b4 h1 h2 h3 h4
    simp [Lis2mdl.start, Lis2mdl.set_register, LIS2MDL_CFG_REG_A,
      LIS2MDL_CFG_REG_B, LIS2MDL_CFG_REG_C, h1, h2, h3, h4]

/-- Witness for C1: on a transport whose third write fails, `start` issues the
first three writes with the two interleaving delays, returns the wrapped
error, and issues nothing further. -/
theorem C1_start_write_sequence_witness :
    (Lis2mdl.new Address.default).start busFail3 0 =
      ⟨Except.error (), 3, Lis2mdl.new Address.default,
       [Event.write 0x1E [0x62, 0x00], Event.delayNs 5000,
        Event.write 0x1E [0x62, 0x11], Event.delayNs 5000,
        Event.write 0x1E [0x60, 0x00]]⟩ :=
  (C1_start_write_sequence Nat Unit busFail3 0
    (Lis2mdl.new Address.default)).2.2.1 1 2 () 3 rfl rfl rfl

/-- Claim C4: when the write-then-read transaction of `read` fails, the stored
raw sample is left unchanged (indeed the whole driver state) and the wrapped
bus error is returned; when it succeeds, the six read bytes are decoded as
three little-endian signed 16-bit integers (x from bytes 0–1, y from 2–3,
z from 4–5) which overwrite the stored raw sample. -/
theorem C4_read_decode_or_preserve :
    ∀ (B E : Type) (bus : Bus B E) (b : B) (s : Lis2mdl),
      (∀ (e : E) (b1 : B),
        bus.transaction b s.address [0x68] 6 = (Except.error e, b1) →
        s.read bus b = ⟨Except.error e, b1, s,
          [Event.transaction s.address [0x68] 6]⟩) ∧
      (∀ (buf : List Nat) (b1 : B),
        bus.transaction b s.address [0x68] 6 = (Except.ok buf, b1) →
        s.read bus b = ⟨Except.ok (), b1,
          { s with
            mag_x := i16_from_le (byteAt buf 0) (byteAt buf 1)
            mag_y := i16_from_le (byteAt buf 2) (byteAt buf 3)
            mag_z := i16_from_le (byteAt buf 4) (byteAt buf 5) },
          [Event.transaction s.address [0x68] 6]⟩) := by
  intro B E bus b s
  constructor
  · intro e b1 h
    simp [Lis2mdl.read, LIS2MDL_OUTX_L_REG, h]
  · intro buf b1 h
    simp [Lis2mdl.read, LIS2MDL_OUTX_L_REG, h]

/-- Witness for C4: the payload `[0x10,0x00, 0xFF,0xFF, 0x00,0x80]` decodes to
`(16, -1, -32768)`, and a failing transaction leaves the fresh driver state
intact. -/
theorem C4_read_decode_or_preserve_witness :
    ((Lis2mdl.new Address.default).read busReadOk ()).drv.mag_x = 16 ∧
    ((Lis2mdl.new Address.default).read busReadOk ()).drv.mag_y = -1 ∧
    ((Lis2mdl.new Address.default).read busReadOk ()).drv.mag_z = -32768 ∧
    ((Lis2mdl.new Address.default).read busReadErr ()).drv =
      Lis2mdl.new Address.default := by
  have hok := (C4_read_decode_or_preserve Unit Unit busReadOk ()
    (Lis2mdl.new Address.default)).2 [0x10, 0x00, 0xFF, 0xFF, 0x00, 0x80] () rfl
  have herr := (C4_read_decode_or_preserve Unit Unit busReadErr ()
    (Lis2mdl.new Address.default)).1 () () rfl
  rw [hok, herr]
  refine ⟨?_, ?_, ?_, rfl⟩ <;> decide

/-- One `get_heading` extrema update only widens the calibration window. -/
theorem heading_state_step_mono (s : Lis2mdl) (r : Int × Int × Int) :
    s.x_max ≤ ((s.setSample r).heading_state).x_max ∧
    ((s.setSample r).heading_state).x_min ≤ s.x_min ∧
    s.y_max ≤ ((s.setSample r).heading_state).y_max ∧
    ((s.setSample r).heading_state).y_min ≤ s.y_min := by
  simp only [Lis2mdl.setSample, Lis2mdl.heading_state]
  exact ⟨le_max_left _ _, min_le_left _ _, le_max_left _ _, min_le_left _ _⟩

/-- Claim C5: across any sequence of `get_heading` calls, with arbitrary raw
samples installed before each call, `x_max` and `y_max` never decrease and
`x_min` and `y_min` never increase. -/
theorem C5_extrema_monotone :
    ∀ (s : Lis2mdl) (samples : List (Int × Int × Int)),
      s.x_max ≤ (s.runHeadings samples).x_max ∧
      (s.runHeadings samples).x_min ≤ s.x_min ∧
      s.y_max ≤ (s.runHeadings samples).y_max ∧
      (s.runHeadings samples).y_min ≤ s.y_min := by
  intro s samples
  induction samples generalizing s with
  | nil => exact ⟨le_refl _, le_refl _, le_refl _, le_refl _⟩
  | cons r rs ih =>
    have hstep := heading_state_step_mono s r
    have hrec := ih ((s.setSample r).heading_state)
    simp only [Lis2mdl.runHeadings]
    exact ⟨le_trans hstep.1 hrec.1, le_trans hrec.2.1 hstep.2.1,
           le_trans hstep.2.2.1 hrec.2.2.1, le_trans hrec.2.2.2 hstep.2.2.2⟩

/-- After one `get_heading` extrema update the window is well ordered. -/
theorem heading_state_step_inv (s : Lis2mdl) (r : Int × Int × Int) :
    ((s.setSample r).heading_state).x_min ≤ ((s.setSample r).heading_state).x_max ∧
    ((s.setSample r).heading_state).y_min ≤ ((s.setSample r).heading_state).y_max := by
  simp only [Lis2mdl.setSample, Lis2mdl.heading_state]
  exact ⟨le_trans (min_le_right _ _) (le_max_right _ _),
         le_trans (min_le_right _ _) (le_max_right _ _)⟩

/-- The converted value of an in-range i16 sample lies within the sentinels. -/
theorem convertAxis_within_sentinels (r : Int) (hlo : -32768 ≤ r)
    (hhi : r ≤ 32767) : f32MIN ≤ convertAxis r ∧ convertAxis r ≤ f32MAX := by
  have hlo2 : (-32768 : ℚ) ≤ (r : ℚ) := by exact_mod_cast hlo
  have hhi2 : (r : ℚ) ≤ 32767 := by exact_mod_cast hhi
  unfold convertAxis LIS2MDL_MAG_LSB LIS2MDL_MGAUSS_TO_UT f32MIN f32MAX
  constructor <;> nlinarith

/-- Claim C7: on a freshly constructed driver with an in-range raw sample, the
first `get_heading` call sets both bounds of each axis to the single observed
converted point; and once `x_min ≤ x_max` and `y_min ≤ y_max` hold they are
preserved by every further `get_heading` call (with arbitrary samples in
between), while the remaining operations do not touch the extrema at all. -/
theorem C7_first_call_extrema_invariant :
    (∀ (a : Address) (hx hy hz : Int),
      -32768 ≤ hx → hx ≤ 32767 → -32768 ≤ hy → hy ≤ 32767 →
      (((Lis2mdl.new a).setSample (hx, hy, hz)).heading_state).x_min = convertAxis hx ∧
      (((Lis2mdl.new a).setSample (hx, hy, hz)).heading_state).x_max = convertAxis hx ∧
      (((Lis2mdl.new a).setSample (hx, hy, hz)).heading_state).y_min = convertAxis hy ∧
      (((Lis2mdl.new a).setSample (hx, hy, hz)).heading_state).y_max = convertAxis hy) ∧
    (∀ (s : Lis2mdl) (samples : List (Int × Int × Int)),
      s.x_min ≤ s.x_max → s.y_min ≤ s.y_max →
      (s.runHeadings samples).x_min ≤ (s.runHeadings samples).x_max ∧
      (s.runHeadings samples).y_min ≤ (s.runHeadings samples).y_max) ∧
    (∀ (B E : Type) (bus : Bus B E) (b : B) (s : Lis2mdl) (reg value : Nat),
      (s.read bus b).drv.x_min = s.x_min ∧ (s.read bus b).drv.x_max = s.x_max ∧
      (s.read bus b).drv.y_min = s.y_min ∧ (s.read bus b).drv.y_max = s.y_max ∧
      (s.start bus b).drv = s ∧ (s.whoami bus b).drv = s ∧
      (s.get_register bus b reg).drv = s ∧ (s.set_register bus b reg value).drv = s) := by
  refine ⟨?_, ?_, ?_⟩
  · intro a hx hy hz hx1 hx2 hy1 hy2
    obtain ⟨hxl, hxu⟩ := convertAxis_within_sentinels hx hx1 hx2
    obtain ⟨hyl, hyu⟩ := convertAxis_within_sentinels hy hy1 hy2
    simp only [Lis2mdl.new, Lis2mdl.setSample, Lis2mdl.heading_state]
    exact ⟨min_eq_right hxu, max_eq_right hxl, min_eq_right hyu, max_eq_right hyl⟩
  · intro s samples hx hy
    induction samples generalizing s with
    | nil => exact ⟨hx, hy⟩
    | cons r rs ih =>
      simp only [Lis2mdl.runHeadings]
      exact ih ((s.setSample r).heading_state) (heading_state_step_inv s r).1
        (heading_state_step_inv s r).2
  · intro B E bus b s reg value
    rcases hw : bus.transaction b s.address [LIS2MDL_OUTX_L_REG] 6 with ⟨r, b1⟩
    refine ⟨?_, ?_, ?_, ?_, start_drv bus b s, whoami_drv bus b s,
      get_register_drv bus b s reg, set_register_drv bus b s reg value⟩ <;>
      cases r <;> simp [Lis2mdl.read, hw]

/-- Witness for C7: at the sample `(100, 200, 0)` the first call leaves the
window at the single point `(15, 30)`, and the invariant holds along a
further call; a concrete `read` keeps the extrema. -/
theorem C7_first_call_extrema_invariant_witness :
    (((Lis2mdl.new Address.default).setSample (100, 200, 0)).heading_state).x_min =
      convertAxis 100 ∧
    (((Lis2mdl.new Address.default).setSample (100, 200, 0)).heading_state).x_max =
      convertAxis 100 ∧
    ((((Lis2mdl.new Address.default).setSample (100, 200, 0)).heading_state).runHeadings
        [(5, -7, 9)]).x_min ≤
      ((((Lis2mdl.new Address.default).setSample (100, 200, 0)).heading_state).runHeadings
        [(5, -7, 9)]).x_max ∧
    (((Lis2mdl.new Address.default).setSample (100, 200, 0)).read busReadOk ()).drv.x_min =
      ((Lis2mdl.new Address.default).setSample (100, 200, 0)).x_min := by
  have h1 := C7_first_call_extrema_invariant.1 Address.default 100 200 0
    (by decide) (by decide) (by decide) (by decide)
  have hinv : (((Lis2mdl.new Address.default).setSample (100, 200, 0)).heading_state).x_min ≤
      (((Lis2mdl.new Address.default).setSample (100, 200, 0)).heading_state).x_max := by
    rw [h1.1, h1.2.1]
  have hy : (((Lis2mdl.new Address.default).setSample (100, 200, 0)).heading_state).y_min ≤
      (((Lis2mdl.new Address.default).setSample (100, 200, 0)).heading_state).y_max := by
    rw [h1.2.2.1, h1.2.2.2]
  have h2 := C7_first_call_extrema_invariant.2.1
    (((Lis2mdl.new Address.default).setSample (100, 200, 0)).heading_state)
    [(5, -7, 9)] hinv hy
  have h3 := (C7_first_call_extrema_invariant.2.2 Unit Unit busReadOk ()
    ((Lis2mdl.new Address.default).setSample (100, 200, 0)) 0 0).1
  exact ⟨h1.1, h1.2.1, h2.1, h3⟩

/-- The unnormalised heading is at most 180 degrees. -/
theorem heading_deg_le_180 (s : Lis2mdl) : s.heading_deg ≤ 180 := by
  unfold Lis2mdl.heading_deg atan2
  rw [div_le_iff₀ Real.pi_pos]
  have h := Complex.arg_le_pi
    (⟨((convertAxis s.mag_x - s.heading_state.x_offset : ℚ) : ℝ),
      ((convertAxis s.mag_y - s.heading_state.y_offset : ℚ) : ℝ)⟩ : ℂ)
  nlinarith [Real.pi_pos]

/-- The unnormalised heading is strictly above −180 degrees. -/
theorem neg_180_lt_heading_deg (s : Lis2mdl) : -180 < s.heading_deg := by
  unfold Lis2mdl.heading_deg atan2
  rw [lt_div_iff₀ Real.pi_pos]
  have h := Complex.neg_pi_lt_arg
    (⟨((convertAxis s.mag_x - s.heading_state.x_offset : ℚ) : ℝ),
      ((convertAxis s.mag_y - s.heading_state.y_offset : ℚ) : ℝ)⟩ : ℂ)
  nlinarith [Real.pi_pos]

/-- Claim C2: for every driver state, the value returned by `get_heading`
lies in `[0, 360)`.  In this real-valued model of the f32 pipeline no NaN
exists; the angle is total even at the degenerate offset-corrected point
`(0, 0)`, where `atan2 0 0 = 0`, so the bound holds unconditionally and in
particular whenever `(x_offset, y_offset) ≠ (x, y)`. -/
theorem C2_heading_in_range :
    ∀ (s : Lis2mdl), 0 ≤ s.get_heading.1 ∧ s.get_heading.1 < 360 := by
  intro s
  have hub := heading_deg_le_180 s
  have hlb := neg_180_lt_heading_deg s
  unfold Lis2mdl.get_heading
  by_cases h : s.heading_deg < 0
  · simp only [h, if_true]
    constructor <;> linarith
  · simp only [h, if_false]
    constructor <;> linarith

/-- Claim C9 as stated is unrealisable on the code: the net conversion factor
is 3/20, so no integer raw sample converts to the scenario's required point
value 10 — the two neighbouring raw values 66 and 67 straddle it, and no
raw sample at all hits it exactly. -/
theorem C9_counterexample :
    convertAxis 66 < 10 ∧ 10 < convertAxis 67 ∧
    ¬ ∃ r : Int, convertAxis r = 10 := by
  refine ⟨by norm_num [convertAxis, LIS2MDL_MAG_LSB, LIS2MDL_MGAUSS_TO_UT],
    by norm_num [convertAxis, LIS2MDL_MAG_LSB, LIS2MDL_MGAUSS_TO_UT], ?_⟩
  rintro ⟨r, hr⟩
  unfold convertAxis LIS2MDL_MAG_LSB LIS2MDL_MGAUSS_TO_UT at hr
  have h4 : ((3 * r : Int) : ℚ) = ((200 : Int) : ℚ) := by push_cast; linarith
  have h5 : (3 * r : Int) = 200 := by exact_mod_cast h4
  omega

/-- The intermediate rational computations of the scenario's final call. -/
theorem scenarioFinal_state_eval :
    scenarioFinal.heading_state.x_min = -30 ∧
    scenarioFinal.heading_state.x_max = 30 ∧
    scenarioFinal.heading_state.y_min = -30 ∧
    scenarioFinal.heading_state.y_max = 30 := by
  norm_num [scenarioFinal, Lis2mdl.runHeadings, Lis2mdl.setSample,
    Lis2mdl.heading_state, Lis2mdl.new, convertAxis, LIS2MDL_MAG_LSB,
    LIS2MDL_MGAUSS_TO_UT, f32MAX, f32MIN, min_def, max_def]

/-- The offset-corrected point of the scenario's final call is `(0, -30)`. -/
theorem scenarioFinal_corrected_point :
    (convertAxis scenarioFinal.mag_x - scenarioFinal.heading_state.x_offset : ℚ) = 0 ∧
    (convertAxis scenarioFinal.mag_y - scenarioFinal.heading_state.y_offset : ℚ) = -30 := by
  have h := scenarioFinal_state_eval
  unfold Lis2mdl.x_offset Lis2mdl.y_offset
  rw [h.1, h.2.1, h.2.2.1, h.2.2.2]
  norm_num [scenarioFinal, Lis2mdl.setSample, convertAxis, LIS2MDL_MAG_LSB,
    LIS2MDL_MGAUSS_TO_UT]

/-- The final call's unnormalised heading is −90 degrees. -/
theorem scenarioFinal_heading_deg : scenarioFinal.heading_deg = -90 := by
  have h := scenarioFinal_corrected_point
  unfold Lis2mdl.heading_deg
  rw [h.1, h.2]
  have harg : atan2 ((-30 : ℚ) : ℝ) ((0 : ℚ) : ℝ) = -(Real.pi / 2) := by
    unfold atan2
    have hz2 : (⟨((0 : ℚ) : ℝ), ((-30 : ℚ) : ℝ)⟩ : ℂ) = ((30 : ℝ) : ℂ) * (-Complex.I) := by
      apply Complex.ext <;> simp
    rw [hz2, Complex.arg_real_mul _ (by norm_num : (0 : ℝ) < 30), Complex.arg_neg_I]
  rw [harg, div_eq_iff Real.pi_ne_zero]
  ring

/-- Claim C9 amended: the nearest realisable version of the scenario scales
the converted points by 3: raw samples `(200,0,0)`, `(-200,0,0)`, `(0,200,0)`,
`(0,-200,0)` convert to `(30,0)`, `(-30,0)`, `(0,30)`, `(0,-30)`; after the
four `get_heading` calls the extrema are `(±30, ±30)`, the final call's
offsets are `(0, 0)`, and the last returned heading is 270 degrees. -/
theorem C9_scenario_amended :
    convertAxis 200 = 30 ∧ convertAxis (-200) = -30 ∧
    scenarioFinal.get_heading.2.x_min = -30 ∧
    scenarioFinal.get_heading.2.x_max = 30 ∧
    scenarioFinal.get_heading.2.y_min = -30 ∧
    scenarioFinal.get_heading.2.y_max = 30 ∧
    scenarioFinal.get_heading.2.x_offset = 0 ∧
    scenarioFinal.get_heading.2.y_offset = 0 ∧
    scenarioFinal.get_heading.1 = 270 := by
  have h2 : scenarioFinal.get_heading.2 = scenarioFinal.heading_state := rfl
  have hs := scenarioFinal_state_eval
  refine ⟨by norm_num [convertAxis, LIS2MDL_MAG_LSB, LIS2MDL_MGAUSS_TO_UT],
    by norm_num [convertAxis, LIS2MDL_MAG_LSB, LIS2MDL_MGAUSS_TO_UT],
    ?_, ?_, ?_, ?_, ?_, ?_, ?_⟩
  · rw [h2]; exact hs.1
  · rw [h2]; exact hs.2.1
  · rw [h2]; exact hs.2.2.1
  · rw [h2]; exact hs.2.2.2
  · rw [h2]; unfold Lis2mdl.x_offset; rw [hs.2.1, hs.1]; norm_num
  · rw [h2]; unfold Lis2mdl.y_offset; rw [hs.2.2.2, hs.2.2.1]; norm_num
  · show (if scenarioFinal.heading_deg < 0 then scenarioFinal.heading_deg + 360
      else scenarioFinal.heading_deg) = 270
    rw [scenarioFinal_heading_deg]
    norm_num
